import Mathlib

/-!
Verification of the moneyAI session-management subsystem
(`backend/auth/session_store.py` and `backend/auth/middleware.py`).

Shallow embedding conventions:
* Times (`datetime.utcnow()`) are integers counting seconds; a `timedelta`
  is an integer number of seconds (24 hours = 86400, 1 hour = 3600,
  15 minutes = 900).
* A Python `dict` is an insertion-ordered association list
  `List (String × α)`; key uniqueness, guaranteed by Python dicts, appears
  as a `Nodup` hypothesis where a proof needs it.
* A stored `expires_at` string is modelled as `Option Int`: `some t` is a
  well-formed ISO timestamp denoting `t`, `none` is a string on which
  `datetime.fromisoformat` raises (the `except` branches of the source).
* Each store operation takes `now : Int` explicitly in place of its calls
  to `datetime.utcnow()`, and the nondeterministically generated ids of
  `_generate_session_id` / `_generate_user_id` are explicit parameters.
* The backing file (`auth/sessions.json`) is the `file` field of the store
  state; `_save_sessions` is `file := sessions`.
-/

/-- A stored session record: the value type of `ProductionSessionStore._sessions`,
as built by `create_session` (session_store.py lines 151-166). -/
structure SessionRecord where
  session_id : String
  user_id : String
  user_email : String
  user_name : String
  company_name : Option String
  startup_stage : Option String
  avatar_url : Option String
  created_at : Int
  expires_at : Option Int
  last_accessed : Int
  ip_address : Option String
  user_agent : Option String
  active : Bool
  login_method : String
deriving Repr, DecidableEq

/-- The `user_data` dict passed to `create_session`; absent keys are `none`. -/
structure UserData where
  id : Option String := none
  email : Option String := none
  full_name : Option String := none
  company_name : Option String := none
  startup_stage : Option String := none
  avatar_url : Option String := none
  ip_address : Option String := none
  user_agent : Option String := none
  login_method : Option String := none
deriving Repr, DecidableEq

/-- State of a `ProductionSessionStore`: the in-memory dict `_sessions`, the
backing file contents, `_last_cleanup`, and the configured durations
(defaults: `session_duration` = 24 h = 86400 s, `cleanup_interval` = 1 h = 3600 s). -/
structure StoreState where
  sessions : List (String × SessionRecord)
  file : List (String × SessionRecord)
  last_cleanup : Int
  session_duration : Int := 86400
  cleanup_interval : Int := 3600
deriving Repr, DecidableEq

/-- Result record of `get_stats`. -/
structure Stats where
  total_sessions : Nat
  active_sessions : Nat
  expired_sessions : Nat
  last_cleanup : Int
deriving Repr, DecidableEq

/-! ### Association-list primitives (the Python dict operations used) -/

/-- `d[k]` / `k in d`: first value bound to `k`. -/
def lookupKey {α : Type} : List (String × α) → String → Option α
  | [], _ => none
  | p :: tl, k => if p.1 = k then some p.2 else lookupKey tl k

/-- `del d[k]`. -/
def eraseKey {α : Type} (l : List (String × α)) (k : String) : List (String × α) :=
  l.filter (fun p => p.1 ≠ k)

/-- `d[k] = v`: replace the binding in place, else append. -/
def setKey {α : Type} : List (String × α) → String → α → List (String × α)
  | [], k, v => [(k, v)]
  | p :: tl, k, v => if p.1 = k then (k, v) :: tl else p :: setKey tl k v

/-! ### Store operations (session_store.py) -/

/-- The keep-condition of `_clean_expired` (line 119): parseable `expires_at`
strictly in the future and `active` truthy. -/
def keepsRecord (now : Int) (sd : SessionRecord) : Bool :=
  match sd.expires_at with
  | some e => decide (e > now) && sd.active
  | none => false

/-- `_clean_expired` (lines 111-125): keep exactly the records that parse,
are unexpired and active; malformed entries are skipped. -/
def cleanExpired (now : Int) (sessions : List (String × SessionRecord)) :
    List (String × SessionRecord) :=
  sessions.filter (fun p => keepsRecord now p.2)

/-- `cleanup_expired_sessions` (lines 261-272): sweep, count removals, and
save only when something was removed. -/
def cleanup_expired_sessions (now : Int) (st : StoreState) : Nat × StoreState :=
  let cleaned := cleanExpired now st.sessions
  let removed := st.sessions.length - cleaned.length
  if removed > 0 then
    (removed, { st with sessions := cleaned, file := cleaned })
  else
    (removed, { st with sessions := cleaned })

/-- `_cleanup_if_needed` (lines 127-132): run the sweep when more than
`cleanup_interval` has passed since `_last_cleanup`. -/
def cleanupIfNeeded (now : Int) (st : StoreState) : StoreState :=
  if now - st.last_cleanup > st.cleanup_interval then
    { (cleanup_expired_sessions now st).2 with last_cleanup := now }
  else
    st

/-- Python `str.startswith`, computed on the character list. -/
def strStartsWith (s pre : String) : Bool :=
  pre.data.isPrefixOf s.data

/-- The user-id selection of `create_session` (lines 143-145): keep the given
id only when it is non-empty and starts with `user-`, else use a fresh one. -/
def chooseUserId (given : Option String) (freshUid : String) : String :=
  match given with
  | none => freshUid
  | some i => if i ≠ "" && strStartsWith i "user-" then i else freshUid

/-- `create_session` (lines 134-173). `freshSid` / `freshUid` stand for the
generated `_generate_session_id()` / `_generate_user_id()` values. -/
def create_session (now : Int) (freshSid freshUid : String) (ud : UserData)
    (st : StoreState) : SessionRecord × StoreState :=
  let st := cleanupIfNeeded now st
  let user_id := chooseUserId ud.id freshUid
  let expires_at := now + st.session_duration
  let sd : SessionRecord :=
    { session_id := freshSid
      user_id := user_id
      user_email := ud.email.getD ""
      user_name := ud.full_name.getD ""
      company_name := ud.company_name
      startup_stage := ud.startup_stage
      avatar_url := ud.avatar_url
      created_at := now
      expires_at := some expires_at
      last_accessed := now
      ip_address := ud.ip_address
      user_agent := ud.user_agent
      active := true
      login_method := ud.login_method.getD "email" }
  let sessions := setKey st.sessions freshSid sd
  (sd, { st with sessions := sessions, file := sessions })

/-- `invalidate_session` (lines 216-224): delete the record and save when the
id is present, else return false. -/
def invalidate_session (sid : String) (st : StoreState) : Bool × StoreState :=
  if (lookupKey st.sessions sid).isSome then
    let s := eraseKey st.sessions sid
    (true, { st with sessions := s, file := s })
  else
    (false, st)

/-- `get_session` (lines 175-200): opportunistic cleanup, lazy expiry
(`utcnow() > expires_at or not active` invalidates), then the `last_accessed`
bump — which is written only to the in-memory map, not to the file. -/
def get_session (now : Int) (sid : String) (st : StoreState) :
    Option SessionRecord × StoreState :=
  let st := cleanupIfNeeded now st
  match lookupKey st.sessions sid with
  | none => (none, st)
  | some sd =>
    match sd.expires_at with
    | none => (none, (invalidate_session sid st).2)
    | some e =>
      if now > e || !sd.active then
        (none, (invalidate_session sid st).2)
      else
        let sd2 := { sd with last_accessed := now }
        (some sd2, { st with sessions := setKey st.sessions sid sd2 })

/-- `invalidate_user_sessions` (lines 226-242): collect the ids owned by
`user_id`, delete them, save only if any were removed, return the count. -/
def invalidate_user_sessions (user_id : String) (st : StoreState) :
    Nat × StoreState :=
  let toRemove := st.sessions.filter (fun p => p.2.user_id = user_id)
  let remaining := st.sessions.filter (fun p => ¬ p.2.user_id = user_id)
  if toRemove.length > 0 then
    (toRemove.length, { st with sessions := remaining, file := remaining })
  else
    (toRemove.length, st)

/-- The loop body of `get_user_sessions` (lines 279-283): for each value of
the map at loop entry, when it belongs to the user re-validate it through
`get_session` (which mutates the store) and collect it when still valid. -/
def gusLoop (now : Int) (user_id : String) :
    List SessionRecord → StoreState → List SessionRecord × StoreState
  | [], st => ([], st)
  | sd :: rest, st =>
    if sd.user_id = user_id then
      match get_session now sd.session_id st with
      | (some sd2, st2) =>
        let (l, st3) := gusLoop now user_id rest st2
        (sd2 :: l, st3)
      | (none, st2) => gusLoop now user_id rest st2
    else
      gusLoop now user_id rest st

/-- `get_user_sessions` (lines 274-285). -/
def get_user_sessions (now : Int) (user_id : String) (st : StoreState) :
    List SessionRecord × StoreState :=
  gusLoop now user_id (st.sessions.map Prod.snd) st

/-- `get_stats` (lines 287-309): counts each record as active when it parses,
is unexpired and active, otherwise (including parse failure) as expired;
reads the state without modifying it. -/
def get_stats (now : Int) (st : StoreState) : Stats × StoreState :=
  ({ total_sessions := st.sessions.length
     active_sessions := st.sessions.countP (fun p => keepsRecord now p.2)
     expired_sessions := st.sessions.countP (fun p => ! keepsRecord now p.2)
     last_cleanup := st.last_cleanup }, st)

/-! ### Auth middleware (middleware.py) -/

/-- A value stored in the Flask client session (the cookie payload). -/
inductive CookieValue where
  | str (s : String)
  | bool (b : Bool)
deriving Repr, DecidableEq

/-- The Flask `session` object: the cookie's key/value mapping plus its
`permanent` flag. -/
structure FlaskSession where
  data : List (String × CookieValue)
  permanent : Bool
deriving Repr, DecidableEq

/-- `UserResponse` (models.py lines 48-58), the identity passed to
`login_user_session`. -/
structure UserResponse where
  id : String
  email : String
  full_name : String
  company_name : Option String := none
  startup_stage : Option String := none
  avatar_url : Option String := none
deriving Repr, DecidableEq

/-- The optional `request_info` dict of `login_user_session`. -/
structure RequestInfo where
  login_method : Option String := none
  ip_address : Option String := none
  user_agent : Option String := none
deriving Repr, DecidableEq

/-- `login_user_session` (middleware.py lines 214-252): clear the Flask
session, build `user_data` from the identity and request metadata, create the
store session, then write `session_id`, `user_id` and `is_authenticated` into
the cookie and mark it permanent. Returns the new cookie and store state. -/
def login_user_session (now : Int) (freshSid freshUid : String)
    (user : UserResponse) (ri : Option RequestInfo)
    (cookie : FlaskSession) (st : StoreState) : FlaskSession × StoreState :=
  let cookie := { cookie with data := [] }
  let ud : UserData :=
    { id := some user.id
      email := some user.email
      full_name := some user.full_name
      company_name := user.company_name
      startup_stage := user.startup_stage
      avatar_url := user.avatar_url
      login_method := some ((ri.map (fun r => r.login_method.getD "email")).getD "email")
      ip_address := (ri.map RequestInfo.ip_address).getD none
      user_agent := (ri.map RequestInfo.user_agent).getD none }
  let (sd, st2) := create_session now freshSid freshUid ud st
  let cookie :=
    { cookie with
        data := setKey (setKey (setKey cookie.data
          "session_id" (CookieValue.str sd.session_id))
          "user_id" (CookieValue.str sd.user_id))
          "is_authenticated" (CookieValue.bool true)
        permanent := true }
  (cookie, st2)

/-! ### Rate limiter (middleware.py lines 274-308) -/

/-- `RateLimiter` state: per-identifier attempt timestamps plus the
configuration (`max_attempts` = 5, `window_minutes` = 15 by default). -/
structure RateLimiter where
  attempts : List (String × List Int)
  max_attempts : Nat := 5
  window_minutes : Int := 15
deriving Repr, DecidableEq

/-- `is_rate_limited` (lines 282-299): prune the identifier's attempts to
those strictly after `now - window`, then compare the count with the
threshold. Returns the verdict and the pruned state. -/
def is_rate_limited (now : Int) (identifier : String) (rl : RateLimiter) :
    Bool × RateLimiter :=
  let window_start := now - 60 * rl.window_minutes
  let rl :=
    match lookupKey rl.attempts identifier with
    | some l =>
      { rl with attempts :=
          setKey rl.attempts identifier (l.filter (fun t => decide (t > window_start))) }
    | none => rl
  let cnt := ((lookupKey rl.attempts identifier).getD []).length
  (decide (cnt ≥ rl.max_attempts), rl)

/-- `record_attempt` (lines 301-308): append `now` to the identifier's list,
creating it when absent. -/
def record_attempt (now : Int) (identifier : String) (rl : RateLimiter) :
    RateLimiter :=
  let l := (lookupKey rl.attempts identifier).getD []
  { rl with attempts := setKey rl.attempts identifier (l ++ [now]) }

/-! ### Helper lemmas on the dict model -/

theorem lookupKey_setKey_self {α : Type} (l : List (String × α)) (k : String) (v : α) :
    lookupKey (setKey l k v) k = some v := by
  induction l with
  | nil => simp [setKey, lookupKey]
  | cons p tl ih =>
    by_cases h : p.1 = k
    · simp [setKey, h, lookupKey]
    · simp [setKey, h, lookupKey, ih]

theorem lookupKey_setKey_ne {α : Type} (l : List (String × α)) (k k' : String) (v : α)
    (h : k' ≠ k) : lookupKey (setKey l k v) k' = lookupKey l k' := by
  induction l with
  | nil => simp [setKey, lookupKey, Ne.symm h]
  | cons p tl ih =>
    by_cases hp : p.1 = k
    · subst hp
      simp [setKey, lookupKey, Ne.symm h]
    · simp only [setKey, if_neg hp, lookupKey]
      by_cases hp' : p.1 = k'
      · simp [hp']
      · simp [hp', ih]

theorem lookupKey_eraseKey_self {α : Type} (l : List (String × α)) (k : String) :
    lookupKey (eraseKey l k) k = none := by
  induction l with
  | nil => simp [eraseKey, lookupKey]
  | cons p tl ih =>
    by_cases h : p.1 = k
    · simpa [eraseKey, h] using ih
    · simpa [eraseKey, lookupKey, h] using ih

theorem lookupKey_filter_none {α : Type} (l : List (String × α)) (k : String)
    (q : String × α → Bool) (h : lookupKey l k = none) :
    lookupKey (l.filter q) k = none := by
  induction l with
  | nil => simp [lookupKey]
  | cons p tl ih =>
    by_cases hp : p.1 = k
    · simp [lookupKey, hp] at h
    · simp only [lookupKey, if_neg hp] at h
      by_cases hq : q p
      · simpa [List.filter_cons, hq, lookupKey, hp] using ih h
      · simpa [List.filter_cons, hq] using ih h

theorem lookupKey_filter_of_keep {α : Type} (l : List (String × α)) (k : String)
    (v : α) (q : α → Bool) (h : lookupKey l k = some v) (hq : q v = true) :
    lookupKey (l.filter (fun p => q p.2)) k = some v := by
  induction l with
  | nil => simp [lookupKey] at h
  | cons p tl ih =>
    by_cases hp : p.1 = k
    · simp only [lookupKey, if_pos hp] at h
      cases h
      simp [List.filter_cons, hq, lookupKey, hp]
    · simp only [lookupKey, if_neg hp] at h
      by_cases hq2 : q p.2
      · simpa [List.filter_cons, hq2, lookupKey, hp] using ih h
      · simpa [List.filter_cons, hq2] using ih h

theorem lookupKey_eq_none_of_not_mem {α : Type} (l : List (String × α)) (k : String)
    (h : k ∉ l.map Prod.fst) : lookupKey l k = none := by
  induction l with
  | nil => simp [lookupKey]
  | cons p tl ih =>
    simp only [List.map_cons, List.mem_cons] at h
    push_neg at h
    simp [lookupKey, Ne.symm h.1, ih h.2]

theorem lookupKey_filter_of_drop {α : Type} (l : List (String × α)) (k : String)
    (v : α) (q : α → Bool) (hwf : (l.map Prod.fst).Nodup)
    (h : lookupKey l k = some v) (hq : q v = false) :
    lookupKey (l.filter (fun p => q p.2)) k = none := by
  induction l with
  | nil => simp [lookupKey] at h
  | cons p tl ih =>
    simp only [List.map_cons, List.nodup_cons] at hwf
    by_cases hp : p.1 = k
    · simp only [lookupKey, if_pos hp] at h
      cases h
      simp only [List.filter_cons, hq, Bool.false_eq_true, if_neg, ite_false]
      exact lookupKey_filter_none tl k _ (lookupKey_eq_none_of_not_mem tl k (hp ▸ hwf.1))
    · simp only [lookupKey, if_neg hp] at h
      by_cases hq2 : q p.2
      · simpa [List.filter_cons, hq2, lookupKey, hp] using ih hwf.2 h
      · simpa [List.filter_cons, hq2] using ih hwf.2 h

theorem length_eq_countP_add_countP_not {α : Type} (l : List α) (p : α → Bool) :
    l.length = l.countP p + l.countP (fun a => ! p a) := by
  induction l with
  | nil => simp
  | cons a tl ih =>
    by_cases h : p a
    · simp [List.countP_cons, h, ih]
      omega
    · simp [List.countP_cons, h, ih]
      omega

/-! ### Helper lemmas on the store operations -/

theorem cleanup_expired_sessions_spec (now : Int) (st : StoreState) :
    (cleanup_expired_sessions now st).2.sessions = cleanExpired now st.sessions ∧
    (cleanup_expired_sessions now st).2.last_cleanup = st.last_cleanup ∧
    (cleanup_expired_sessions now st).2.session_duration = st.session_duration ∧
    (cleanup_expired_sessions now st).2.cleanup_interval = st.cleanup_interval := by
  by_cases h : st.sessions.length - (cleanExpired now st.sessions).length > 0 <;>
    simp [cleanup_expired_sessions, h]

theorem cleanupIfNeeded_sessions (now : Int) (st : StoreState) :
    (cleanupIfNeeded now st).sessions =
      if now - st.last_cleanup > st.cleanup_interval then cleanExpired now st.sessions
      else st.sessions := by
  by_cases h : now - st.last_cleanup > st.cleanup_interval <;>
    simp [cleanupIfNeeded, h, (cleanup_expired_sessions_spec now st).1]

theorem cleanupIfNeeded_config (now : Int) (st : StoreState) :
    (cleanupIfNeeded now st).session_duration = st.session_duration ∧
    (cleanupIfNeeded now st).cleanup_interval = st.cleanup_interval := by
  by_cases h : now - st.last_cleanup > st.cleanup_interval <;>
    simp [cleanupIfNeeded, h, (cleanup_expired_sessions_spec now st).2.2.1,
      (cleanup_expired_sessions_spec now st).2.2.2]

/-- A record that is inactive, strictly expired, or carries an unparsable
`expires_at` must be purged on read. -/
def invalidAt (now : Int) (sd : SessionRecord) : Prop :=
  sd.active = false ∨ sd.expires_at = none ∨ ∃ e, sd.expires_at = some e ∧ now > e

theorem keepsRecord_eq_false_of_invalidAt (now : Int) (sd : SessionRecord)
    (h : invalidAt now sd) : keepsRecord now sd = false := by
  unfold keepsRecord
  rcases h with h | h | ⟨e, he, hlt⟩
  · cases hx : sd.expires_at <;> simp [h]
  · simp [h]
  · simp only [he]
    have : ¬ e > now := by omega
    simp [this]

theorem invalidate_session_removes (sid : String) (st : StoreState) (sd : SessionRecord)
    (h : lookupKey st.sessions sid = some sd) :
    lookupKey (invalidate_session sid st).2.sessions sid = none := by
  simp only [invalidate_session, h, Option.isSome_some, if_true]
  exact lookupKey_eraseKey_self st.sessions sid

theorem invalidate_session_absent (sid : String) (st : StoreState)
    (h : lookupKey st.sessions sid = none) :
    (invalidate_session sid st).1 = false := by
  simp [invalidate_session, h]

theorem get_session_absent (now : Int) (sid : String) (st : StoreState)
    (h : lookupKey st.sessions sid = none) :
    (get_session now sid st).1 = none ∧
    lookupKey (get_session now sid st).2.sessions sid = none := by
  have hlook : lookupKey (cleanupIfNeeded now st).sessions sid = none := by
    rw [cleanupIfNeeded_sessions]
    split
    · exact lookupKey_filter_none _ _ _ h
    · exact h
  constructor <;> simp [get_session, hlook]

theorem get_session_invalid (now : Int) (sid : String) (st : StoreState)
    (sd : SessionRecord) (hwf : (st.sessions.map Prod.fst).Nodup)
    (h : lookupKey st.sessions sid = some sd) (hbad : invalidAt now sd) :
    (get_session now sid st).1 = none ∧
    lookupKey (get_session now sid st).2.sessions sid = none := by
  have hinv : lookupKey (invalidate_session sid st).2.sessions sid = none :=
    invalidate_session_removes sid st sd h
  by_cases hc : now - st.last_cleanup > st.cleanup_interval
  · have hlook : lookupKey (cleanupIfNeeded now st).sessions sid = none := by
      rw [cleanupIfNeeded_sessions, if_pos hc]
      exact lookupKey_filter_of_drop st.sessions sid sd _ hwf h
        (keepsRecord_eq_false_of_invalidAt now sd hbad)
    constructor <;> simp [get_session, hlook]
  · have hst : cleanupIfNeeded now st = st := by simp [cleanupIfNeeded, hc]
    rcases hbad with ha | hn | ⟨e, he, hlt⟩
    · cases hx : sd.expires_at with
      | none => constructor <;> simp [get_session, hst, h, hx, hinv]
      | some e => constructor <;> simp [get_session, hst, h, hx, ha, hinv]
    · constructor <;> simp [get_session, hst, h, hn, hinv]
    · constructor <;> simp [get_session, hst, h, he, hlt, hinv]

theorem get_session_valid (now : Int) (sid : String) (st : StoreState)
    (sd : SessionRecord) (e : Int)
    (h : lookupKey st.sessions sid = some sd)
    (he : sd.expires_at = some e) (hnow : e > now) (ha : sd.active = true) :
    (get_session now sid st).1 = some { sd with last_accessed := now } ∧
    lookupKey (get_session now sid st).2.sessions sid =
      some { sd with last_accessed := now } ∧
    (get_session now sid st).2.file = (cleanupIfNeeded now st).file := by
  have hlook : lookupKey (cleanupIfNeeded now st).sessions sid = some sd := by
    rw [cleanupIfNeeded_sessions]
    split
    · exact lookupKey_filter_of_keep _ _ _ _ h (by simp [keepsRecord, he, hnow, ha])
    · exact h
  have hcond : ¬ now > e := by omega
  refine ⟨?_, ?_, ?_⟩ <;>
    simp [get_session, hlook, he, hcond, ha, lookupKey_setKey_self]

/-! ### Concrete fixtures used by counterexamples and witnesses -/

/-- An active session for user `user-1` expiring at time 100. -/
def recA : SessionRecord :=
  { session_id := "sess_a", user_id := "user-1", user_email := "a@x.test"
    user_name := "A", company_name := none, startup_stage := none
    avatar_url := none, created_at := 0, expires_at := some 100
    last_accessed := 0, ip_address := none, user_agent := none
    active := true, login_method := "email" }

/-- An active session for user `user-2` expiring at time 100. -/
def recD : SessionRecord :=
  { session_id := "sess_d", user_id := "user-2", user_email := "d@x.test"
    user_name := "D", company_name := none, startup_stage := none
    avatar_url := none, created_at := 0, expires_at := some 100
    last_accessed := 0, ip_address := none, user_agent := none
    active := true, login_method := "email" }

/-- An empty store. -/
def stEmpty : StoreState := { sessions := [], file := [], last_cleanup := 0 }

/-- A store holding exactly `recA`, with the cleanup throttle not yet due. -/
def stOne : StoreState :=
  { sessions := [("sess_a", recA)], file := [("sess_a", recA)], last_cleanup := 100 }

/-- A store holding one session each for `user-1` and `user-2`. -/
def stTwo : StoreState :=
  { sessions := [("sess_a", recA), ("sess_d", recD)]
    file := [("sess_a", recA), ("sess_d", recD)], last_cleanup := 100 }

/-- The identity used in the middleware scenarios. -/
def aliceUser : UserResponse :=
  { id := "user-1", email := "a@x.test", full_name := "A" }

/-- An empty client session. -/
def emptyCookie : FlaskSession := { data := [], permanent := false }

/-- Five attempts recorded for one identifier. -/
def rlFive : RateLimiter := { attempts := [("1.2.3.4", [10, 20, 30, 40, 50])] }

/-! ### Claims -/

/-- C10: for every store state and time, the statistics of `get_stats`
satisfy `total_sessions = active_sessions + expired_sessions`: each stored
record is counted exactly once, as active when its `expires_at` parses,
lies strictly in the future and the record is active, otherwise (including
an unparsable `expires_at`) as expired. -/
theorem C10_stats_partition (now : Int) (st : StoreState) :
    (get_stats now st).1.total_sessions =
      (get_stats now st).1.active_sessions + (get_stats now st).1.expired_sessions := by
  simpa [get_stats] using length_eq_countP_add_countP_not st.sessions
    (fun p => keepsRecord now p.2)

/-- C2 counterexample: after `login_user_session` for a concrete identity,
the outgoing Flask session mapping contains the key `user_id` bound to the
identity claim `user-1` — not only the opaque session id, contrary to the
claim. -/
theorem C2_counterexample :
    lookupKey (login_user_session 0 "sess_x" "user-g" aliceUser none
      emptyCookie stEmpty).1.data "user_id" = some (CookieValue.str "user-1") := by
  decide

/-- C2 (amended): for every identity, request info, prior cookie and store
state, the outgoing client cookie mapping after `login_user_session` holds
exactly the keys `session_id`, `user_id` and `is_authenticated` — the opaque
session id plus a redundant user id and a boolean flag, but no email, name
or other claim fields. -/
theorem C2_cookie_contents (now : Int) (freshSid freshUid : String)
    (user : UserResponse) (ri : Option RequestInfo) (cookie : FlaskSession)
    (st : StoreState) :
    (login_user_session now freshSid freshUid user ri cookie st).1.data.map
        Prod.fst = ["session_id", "user_id", "is_authenticated"] ∧
    lookupKey (login_user_session now freshSid freshUid user ri cookie
        st).1.data "is_authenticated" = some (CookieValue.bool true) := by
  constructor <;> rfl

/-- C3 counterexample: `create_session` on input lacking both a user
identifier and any contact claim does not reject — it creates a record and
adds it to the store, contrary to the claim that no session record is added
for such input. -/
theorem C3_counterexample :
    lookupKey ((create_session 0 "sess_x" "user-g1" {} stEmpty).2).sessions
        "sess_x" = some (create_session 0 "sess_x" "user-g1" {} stEmpty).1 ∧
    ((create_session 0 "sess_x" "user-g1" {} stEmpty).2).sessions.length = 1 := by
  constructor <;> rfl

/-- C3 (amended): `create_session` never rejects its input: for every input
(including one lacking a user identifier and all contact claims) a record is
stored under the fresh session id; a missing user id is replaced by the
generated one and a missing email defaults to the empty string. -/
theorem C3_create_session_never_rejects (now : Int) (freshSid freshUid : String)
    (ud : UserData) (st : StoreState) :
    lookupKey (create_session now freshSid freshUid ud st).2.sessions freshSid =
      some (create_session now freshSid freshUid ud st).1 ∧
    (ud.id = none → (create_session now freshSid freshUid ud st).1.user_id = freshUid) ∧
    (ud.email = none → (create_session now freshSid freshUid ud st).1.user_email = "") := by
  refine ⟨?_, ?_, ?_⟩
  · simp [create_session, lookupKey_setKey_self]
  · intro h
    simp [create_session, chooseUserId, h]
  · intro h
    simp [create_session, h]

/-- C3 witness: the amended theorem applied to the empty input. -/
theorem C3_witness :
    lookupKey (create_session 0 "sess_y" "user-g2" {} stEmpty).2.sessions "sess_y" =
      some (create_session 0 "sess_y" "user-g2" {} stEmpty).1 ∧
    (create_session 0 "sess_y" "user-g2" {} stEmpty).1.user_id = "user-g2" ∧
    (create_session 0 "sess_y" "user-g2" {} stEmpty).1.user_email = "" :=
  ⟨(C3_create_session_never_rejects 0 "sess_y" "user-g2" {} stEmpty).1,
   (C3_create_session_never_rejects 0 "sess_y" "user-g2" {} stEmpty).2.1 rfl,
   (C3_create_session_never_rejects 0 "sess_y" "user-g2" {} stEmpty).2.2 rfl⟩

/-- C1 counterexample: at the boundary time `now = expires_at` (here both
100), with the opportunistic sweep not due, `get_session` does not remove
the record and does not return none — it returns the record with its
`last_accessed` bumped, because the code tests `utcnow() > expires_at`
strictly. -/
theorem C1_counterexample :
    (get_session 100 "sess_a" stOne).1 = some { recA with last_accessed := 100 } ∧
    lookupKey (get_session 100 "sess_a" stOne).2.sessions "sess_a" =
      some { recA with last_accessed := 100 } := by
  constructor <;> rfl

/-- C1 (amended): for every well-formed store state and session id, if the
stored record has `active = false`, an unparsable `expires_at`, or
`expires_at` strictly less than `now`, then `get_session` removes it and
returns none; at the boundary `expires_at = now` the record can instead be
returned, since the code compares strictly. -/
theorem C1_get_session_purges_invalid (now : Int) (sid : String)
    (st : StoreState) (sd : SessionRecord)
    (hwf : (st.sessions.map Prod.fst).Nodup)
    (h : lookupKey st.sessions sid = some sd)
    (hbad : sd.active = false ∨ sd.expires_at = none ∨
      ∃ e, sd.expires_at = some e ∧ now > e) :
    (get_session now sid st).1 = none ∧
    lookupKey (get_session now sid st).2.sessions sid = none :=
  get_session_invalid now sid st sd hwf h hbad

/-- C1 witness: the amended theorem applied to a store holding one record
that expired at time 100, read at time 200. -/
theorem C1_witness :
    (get_session 200 "sess_a" stOne).1 = none ∧
    lookupKey (get_session 200 "sess_a" stOne).2.sessions "sess_a" = none :=
  C1_get_session_purges_invalid 200 "sess_a" stOne recA (by decide) (by decide)
    (Or.inr (Or.inr ⟨100, rfl, by decide⟩))

/-- C5 counterexample: reading a valid session bumps `last_accessed` in the
returned record and the in-memory map, but the backing file is not written:
it still holds the pre-read record, contrary to the claim that the updated
record is persisted before returning. -/
theorem C5_counterexample :
    (get_session 50 "sess_a" stOne).1 = some { recA with last_accessed := 50 } ∧
    (get_session 50 "sess_a" stOne).2.file = stOne.file ∧
    lookupKey (get_session 50 "sess_a" stOne).2.file "sess_a" = some recA := by
  refine ⟨?_, ?_, ?_⟩ <;> rfl

/-- C5 (amended): for every store state holding `sid` as a valid record
(parseable `expires_at` strictly in the future, `active = true`),
`get_session` returns the record with `last_accessed` set to `now` and
stores the bump in the in-memory map, but leaves the backing file exactly
as the opportunistic sweep left it — the bump itself is never written to
the file by `get_session`. -/
theorem C5_get_session_bumps_in_memory_only (now : Int) (sid : String)
    (st : StoreState) (sd : SessionRecord) (e : Int)
    (h : lookupKey st.sessions sid = some sd)
    (he : sd.expires_at = some e) (hnow : e > now) (ha : sd.active = true) :
    (get_session now sid st).1 = some { sd with last_accessed := now } ∧
    lookupKey (get_session now sid st).2.sessions sid =
      some { sd with last_accessed := now } ∧
    (get_session now sid st).2.file = (cleanupIfNeeded now st).file :=
  get_session_valid now sid st sd e h he hnow ha

/-- C5 witness: the amended theorem applied to `stOne` read at time 50. -/
theorem C5_witness :
    (get_session 50 "sess_a" stOne).1 = some { recA with last_accessed := 50 } ∧
    lookupKey (get_session 50 "sess_a" stOne).2.sessions "sess_a" =
      some { recA with last_accessed := 50 } ∧
    (get_session 50 "sess_a" stOne).2.file = (cleanupIfNeeded 50 stOne).file :=
  C5_get_session_bumps_in_memory_only 50 "sess_a" stOne recA 100 (by decide) rfl
    (by decide) rfl

/-- C4 counterexample: `get_user_sessions` is not read-only: on a store with
one valid session of the user, it changes the in-memory session map — the
nested `get_session` call bumps the record's `last_accessed`. -/
theorem C4_counterexample :
    (get_user_sessions 50 "user-1" stOne).2.sessions ≠ stOne.sessions := by
  decide

/-- C4 (amended): `get_stats` is read-only — for every time and store state
it returns normally and leaves the state (in-memory map and backing file)
unchanged; `get_user_sessions` is not read-only: through its nested
`get_session` calls it rewrites the user's valid records with a bumped
`last_accessed` (and purges invalid ones), as the concrete store `stOne`
shows. -/
theorem C4_get_stats_read_only (now : Int) (st : StoreState) :
    (get_stats now st).2 = st ∧
    (get_user_sessions 50 "user-1" stOne).2.sessions =
      [("sess_a", { recA with last_accessed := 50 })] ∧
    (get_user_sessions 50 "user-1" stOne).1 =
      [{ recA with last_accessed := 50 }] :=
  ⟨rfl, by decide, by decide⟩

/-- C6: for every user id `u` and store state, `invalidate_user_sessions u`
returns exactly the number of stored records whose `user_id` is `u`, leaves
the session map equal to the records of other users in order, and every
record of any other user is still retrievable unmodified. -/
theorem C6_invalidate_user_sessions_exact (u : String) (st : StoreState) :
    (invalidate_user_sessions u st).1 =
      (st.sessions.filter (fun p => p.2.user_id = u)).length ∧
    (invalidate_user_sessions u st).2.sessions =
      st.sessions.filter (fun p => ¬ p.2.user_id = u) ∧
    (∀ sid sd, lookupKey st.sessions sid = some sd → ¬ sd.user_id = u →
      lookupKey (invalidate_user_sessions u st).2.sessions sid = some sd) := by
  by_cases hpos : (st.sessions.filter (fun p => p.2.user_id = u)).length > 0
  · refine ⟨by simp [invalidate_user_sessions, hpos], by simp [invalidate_user_sessions, hpos], ?_⟩
    intro sid sd h hne
    have hkeep : lookupKey
        (st.sessions.filter (fun p => ! decide (p.2.user_id = u))) sid = some sd :=
      lookupKey_filter_of_keep st.sessions sid sd
        (fun v => ! decide (v.user_id = u)) h (by simp [hne])
    simpa [invalidate_user_sessions, hpos] using hkeep
  · have h0 : st.sessions.filter (fun p => p.2.user_id = u) = [] :=
      List.eq_nil_of_length_eq_zero (by omega)
    have hall : ∀ p ∈ st.sessions, ¬ p.2.user_id = u := by
      intro p hp hc
      have hmem : p ∈ st.sessions.filter (fun p => p.2.user_id = u) :=
        List.mem_filter.mpr ⟨hp, by simp [hc]⟩
      rw [h0] at hmem
      exact absurd hmem (List.not_mem_nil p)
    have hneg : st.sessions.filter (fun p => ! decide (p.2.user_id = u)) = st.sessions :=
      List.filter_eq_self.mpr (fun a ha => by simp [hall a ha])
    refine ⟨by simp [invalidate_user_sessions, hpos],
      by simp [invalidate_user_sessions, hpos, hneg], ?_⟩
    intro sid sd h hne
    simpa [invalidate_user_sessions, hpos] using h

/-- C6 witness: invalidating the sessions of `user-1` on a two-user store
removes exactly one record and leaves the record of `user-2` retrievable. -/
theorem C6_witness :
    (invalidate_user_sessions "user-1" stTwo).1 =
      (stTwo.sessions.filter (fun p => p.2.user_id = "user-1")).length ∧
    (invalidate_user_sessions "user-1" stTwo).2.sessions =
      stTwo.sessions.filter (fun p => ¬ p.2.user_id = "user-1") ∧
    lookupKey (invalidate_user_sessions "user-1" stTwo).2.sessions "sess_d" =
      some recD :=
  ⟨(C6_invalidate_user_sessions_exact "user-1" stTwo).1,
   (C6_invalidate_user_sessions_exact "user-1" stTwo).2.1,
   (C6_invalidate_user_sessions_exact "user-1" stTwo).2.2 "sess_d" recD
     (by decide) (by decide)⟩

/-- C7: every record returned by `create_session` has
`expires_at = created_at + session_duration` exactly (the configured
duration, 24 hours = 86400 s by default); and once `now` is strictly past a
stored record's `expires_at`, `get_session` returns none on that call and on
every subsequent call (idempotent expiry). -/
theorem C7_expiry_exact (now : Int) (freshSid freshUid : String) (ud : UserData)
    (st : StoreState) :
    ((create_session now freshSid freshUid ud st).1.expires_at =
      some ((create_session now freshSid freshUid ud st).1.created_at +
        st.session_duration)) ∧
    (∀ (t1 t2 : Int) (sid : String) (st2 : StoreState) (sd : SessionRecord)
      (e : Int), (st2.sessions.map Prod.fst).Nodup →
      lookupKey st2.sessions sid = some sd → sd.expires_at = some e → t1 > e →
      (get_session t1 sid st2).1 = none ∧
      (get_session t2 sid (get_session t1 sid st2).2).1 = none) := by
  constructor
  · simp [create_session, (cleanupIfNeeded_config now st).1]
  · intro t1 t2 sid st2 sd e hwf h he ht
    have h1 := get_session_invalid t1 sid st2 sd hwf h (Or.inr (Or.inr ⟨e, he, ht⟩))
    exact ⟨h1.1, (get_session_absent t2 sid _ h1.2).1⟩

/-- C7 witness: a concrete creation satisfies the exact-duration equation,
and reading the record of `stOne` (expiry 100) at times 200 then 300
returns none both times. -/
theorem C7_witness :
    ((create_session 0 "sess_c" "user-g3" {} stEmpty).1.expires_at =
      some ((create_session 0 "sess_c" "user-g3" {} stEmpty).1.created_at +
        stEmpty.session_duration)) ∧
    ((get_session 200 "sess_a" stOne).1 = none ∧
     (get_session 300 "sess_a" (get_session 200 "sess_a" stOne).2).1 = none) :=
  ⟨(C7_expiry_exact 0 "sess_c" "user-g3" {} stEmpty).1,
   (C7_expiry_exact 0 "sess_c" "user-g3" {} stEmpty).2 200 300 "sess_a" stOne
     recA 100 (by decide) (by decide) rfl (by decide)⟩

/-- C8: for every store state holding session id `sid`, the first
`invalidate_session sid` returns true, a second call on the resulting state
returns false, and `get_session sid` on the resulting state returns none at
every time. -/
theorem C8_invalidate_idempotent (sid : String) (st : StoreState)
    (sd : SessionRecord) (h : lookupKey st.sessions sid = some sd) :
    (invalidate_session sid st).1 = true ∧
    (invalidate_session sid (invalidate_session sid st).2).1 = false ∧
    ∀ now, (get_session now sid (invalidate_session sid st).2).1 = none := by
  have h2 : lookupKey (invalidate_session sid st).2.sessions sid = none :=
    invalidate_session_removes sid st sd h
  refine ⟨by simp [invalidate_session, h], invalidate_session_absent sid _ h2,
    fun now => (get_session_absent now sid _ h2).1⟩

/-- C8 witness: the theorem applied to `stOne` and its session `sess_a`,
with the follow-up read at time 500. -/
theorem C8_witness :
    (invalidate_session "sess_a" stOne).1 = true ∧
    (invalidate_session "sess_a" (invalidate_session "sess_a" stOne).2).1 = false ∧
    (get_session 500 "sess_a" (invalidate_session "sess_a" stOne).2).1 = none :=
  ⟨(C8_invalidate_idempotent "sess_a" stOne recA (by decide)).1,
   (C8_invalidate_idempotent "sess_a" stOne recA (by decide)).2.1,
   (C8_invalidate_idempotent "sess_a" stOne recA (by decide)).2.2 500⟩

/-- C9: with the default configuration (threshold 5, window 15 minutes =
900 s), `is_rate_limited` returns true exactly when at least 5 recorded
attempts for the identifier lie within the trailing window, i.e. have
timestamps strictly after `now - 900`. -/
theorem C9_rate_limited_iff (now : Int) (identifier : String) (rl : RateLimiter)
    (hmax : rl.max_attempts = 5) (hwin : rl.window_minutes = 15) :
    ((is_rate_limited now identifier rl).1 = true ↔
      5 ≤ (((lookupKey rl.attempts identifier).getD []).filter
        (fun t => decide (t > now - 900))).length) := by
  cases hl : lookupKey rl.attempts identifier with
  | none => simp [is_rate_limited, hl, hmax]
  | some l => simp [is_rate_limited, hl, hmax, hwin, lookupKey_setKey_self]

/-- C9 witness: five attempts inside the window trip the limiter at time 60;
at time 1000 the window has elapsed and the limiter is off again. -/
theorem C9_witness :
    ((is_rate_limited 60 "1.2.3.4" rlFive).1 = true ↔
      5 ≤ (((lookupKey rlFive.attempts "1.2.3.4").getD []).filter
        (fun t => decide (t > (60 : Int) - 900))).length) ∧
    (is_rate_limited 60 "1.2.3.4" rlFive).1 = true ∧
    (is_rate_limited 1000 "1.2.3.4" rlFive).1 = false :=
  ⟨C9_rate_limited_iff 60 "1.2.3.4" rlFive rfl rfl, by decide, by decide⟩
